import Mathlib

/-!
Verification development for the Tock key-value store capsule
(`capsules/extra/src/kv_store.rs`).

The capsule drives one logical Get/Set/Delete operation through an
asynchronous storage engine.  We embed the capsule shallowly: the store
state is a record of the option-typed ownership cells, each public entry
point and each engine-completion handler becomes a pure function from the
state (plus the arguments the engine hands back, plus the synchronous
answer of the next engine submission) to a new state, the list of engine
calls issued, and the list of client callbacks delivered.  A Rust panic
(out-of-bounds slice, unwrap of an empty cell) is modelled by the function
returning `none`.
-/

namespace KVSpec

/-- Kernel error codes (`kernel::ErrorCode`) used by the capsule. -/
inductive ErrorCode where
  | FAIL
  | BUSY
  | ALREADY
  | OFF
  | RESERVE
  | INVAL
  | SIZE
  | CANCEL
  | NOMEM
  | NOSUPPORT
  | NODEVICE
  | UNINSTALLED
  | NOACK
deriving DecidableEq, Repr

/-- `Result<(), ErrorCode>`: `none` is `Ok(())`, `some e` is `Err(e)`. -/
abbrev Res := Option ErrorCode

/-- The operation tag (`enum Operation`). -/
inductive Operation where
  | Get
  | Set
  | Delete
deriving DecidableEq, Repr

/-- `HEADER_VERSION`: the only recognized header version. -/
def HEADER_VERSION : Nat := 0

/-- `HEADER_LENGTH`: size of the packed `KeyHeader` (1 + 4 + 4 bytes). -/
def HEADER_LENGTH : Nat := 9

/-- The object header (`struct KeyHeader`).  Field values are machine
integers; we carry them as `Nat` (u8 for `version`, u32 for the rest). -/
structure KeyHeader where
  version : Nat
  length : Nat
  write_id : Nat
deriving DecidableEq, Repr

/-- `u32::from_le_bytes` on four bytes. -/
def fromLeBytes4 (b0 b1 b2 b3 : Nat) : Nat :=
  b0 + 256 * b1 + 65536 * b2 + 16777216 * b3

/-- `u32::to_le_bytes`, with the explicit mod-256 of byte extraction. -/
def toLeBytes4 (n : Nat) : List Nat :=
  [n % 256, n / 256 % 256, n / 65536 % 256, n / 16777216 % 256]

/-- `KeyHeader::new_from_buf`.  The source indexes `buf[0]`, `buf[1..5]`
and `buf[5..9]`; on a buffer shorter than 9 bytes those slice operations
panic, which we model as `none`.  (The `try_into().unwrap_or([0; 4])`
guard only covers a length mismatch of the array conversion, which cannot
occur once the slicing succeeded.) -/
def KeyHeader.new_from_buf (buf : List Nat) : Option KeyHeader :=
  if buf.length < 9 then none
  else
    some
      { version := buf.getD 0 0
        length := fromLeBytes4 (buf.getD 1 0) (buf.getD 2 0) (buf.getD 3 0) (buf.getD 4 0)
        write_id := fromLeBytes4 (buf.getD 5 0) (buf.getD 6 0) (buf.getD 7 0) (buf.getD 8 0) }

/-- `KeyHeader::copy_to_buf`: writes version at offset 0, length as
little-endian u32 at 1..5, write_id as little-endian u32 at 5..9.  The
slice assignments panic on a buffer shorter than 9 bytes (`none`). -/
def KeyHeader.copy_to_buf (h : KeyHeader) (buf : List Nat) : Option (List Nat) :=
  if buf.length < 9 then none
  else some ([h.version % 256] ++ toLeBytes4 h.length ++ toLeBytes4 h.write_id ++ buf.drop 9)

/-- `kernel::storage_permissions::StoragePermissions`, at the interface the
capsule consumes: a write owner id and the two permission predicates. -/
structure StoragePermissions where
  write_id : Option Nat
  read_perm : Nat → Bool
  write_perm : Nat → Bool

/-- `StoragePermissions::get_write_id`. -/
def StoragePermissions.get_write_id (p : StoragePermissions) : Option Nat :=
  p.write_id

/-- `StoragePermissions::check_read_permission`. -/
def StoragePermissions.check_read_permission (p : StoragePermissions) (id : Nat) : Bool :=
  p.read_perm id

/-- `StoragePermissions::check_write_permission`. -/
def StoragePermissions.check_write_permission (p : StoragePermissions) (id : Nat) : Bool :=
  p.write_perm id

/-- The ownership cells of `struct KVStore`.  `TakeCell`, `OptionalCell`
and `MapCell` all become `Option`; the abstract hashed-key type `T` is
carried as `Nat`; `client` records whether a callback target is set. -/
structure KVState where
  hashed_key : Option Nat
  header_value : Option (List Nat)
  client : Bool
  operation : Option Operation
  unhashed_key : Option (List Nat)
  value : Option (List Nat)
  valid_ids : Option StoragePermissions

/-- A client callback delivered by the store (trait `StoreClient`). -/
inductive Callback where
  | get_complete (result : Res) (unhashed_key : List Nat) (value : List Nat)
  | set_complete (result : Res) (unhashed_key : List Nat) (value : List Nat)
  | delete_complete (result : Res) (unhashed_key : List Nat)
deriving DecidableEq, Repr

/-- An asynchronous submission issued to the storage engine. -/
inductive EngineCall where
  | generate_key (unhashed : List Nat) (hashed : Nat)
  | get_value (hashed : Nat) (buf : List Nat)
  | append_key (hashed : Nat) (value : List Nat)
  | invalidate_key (hashed : Nat)
deriving DecidableEq, Repr

/-- The synchronous answer of an engine submission: accepted, or rejected
with the submitted buffers handed back together with a `Res`. -/
inductive EngResp where
  | accepted
  | rejected (e : Res)
deriving DecidableEq, Repr

/-- Result of a public entry point: the value returned by the Rust call
(`none` models `Ok(())`, `some` models `Err((key, value, e))`), the store
state after the call, the engine submissions made, and the client
callbacks delivered (entry points never invoke the client directly, so
`cbs` is always empty; the field makes that provable). -/
structure CallOut where
  ret : Option (List Nat × List Nat × Res)
  st : KVState
  calls : List EngineCall
  cbs : List Callback

/-- Result of `KVStore::delete`, whose error carries only the key. -/
structure DelOut where
  ret : Option (List Nat × Res)
  st : KVState
  calls : List EngineCall
  cbs : List Callback

/-- Result of an engine-completion handler. -/
structure StepOut where
  st : KVState
  calls : List EngineCall
  cbs : List Callback

/-- `KVStore::get` (kv_store.rs lines 262-303).  `resp` is the synchronous
answer of the engine to the `generate_key` submission.  When the
hashed-key cell is empty the source falls into the `map_or` default and
then panics on `self.unhashed_key.take().unwrap()`: `none`. -/
def KVStore.get (st : KVState) (key value : List Nat) (permissions : StoragePermissions)
    (resp : EngResp) : Option CallOut :=
  if st.operation.isSome then
    some { ret := some (key, value, some ErrorCode.BUSY), st := st, calls := [], cbs := [] }
  else
    let st1 : KVState :=
      { st with operation := some Operation.Get, valid_ids := some permissions,
                value := some value }
    match st1.hashed_key with
    | none => none
    | some hk =>
      let st2 : KVState := { st1 with hashed_key := none }
      match resp with
      | EngResp.accepted =>
        some { ret := none, st := st2, calls := [EngineCall.generate_key key hk], cbs := [] }
      | EngResp.rejected e =>
        let st3 : KVState :=
          { st2 with operation := none, hashed_key := some hk, unhashed_key := some key }
        match e with
        | some ec =>
          some { ret := some (key, value, some ec)
                 st := { st3 with unhashed_key := none, value := none }
                 calls := [EngineCall.generate_key key hk], cbs := [] }
        | none =>
          some { ret := none, st := st3, calls := [EngineCall.generate_key key hk], cbs := [] }

/-- `KVStore::set` (lines 305-377).  Checks, in source order: a write id
in the permissions (`INVAL`), the busy flag (`BUSY`), room for the header
(`SIZE`); then encodes the header into the front of the value buffer and
submits `generate_key`. -/
def KVStore.set (st : KVState) (key value : List Nat) (permissions : StoragePermissions)
    (resp : EngResp) : Option CallOut :=
  match permissions.get_write_id with
  | none =>
    some { ret := some (key, value, some ErrorCode.INVAL), st := st, calls := [], cbs := [] }
  | some write_id =>
    if st.operation.isSome then
      some { ret := some (key, value, some ErrorCode.BUSY), st := st, calls := [], cbs := [] }
    else if value.length < HEADER_LENGTH then
      some { ret := some (key, value, some ErrorCode.SIZE), st := st, calls := [], cbs := [] }
    else
      match KeyHeader.copy_to_buf
          { version := HEADER_VERSION, length := value.length - HEADER_LENGTH,
            write_id := write_id } value with
      | none => none
      | some value2 =>
        let st1 : KVState :=
          { st with operation := some Operation.Set, valid_ids := some permissions,
                    value := some value2 }
        match st1.hashed_key with
        | none => none
        | some hk =>
          let st2 : KVState := { st1 with hashed_key := none }
          match resp with
          | EngResp.accepted =>
            some { ret := none, st := st2, calls := [EngineCall.generate_key key hk], cbs := [] }
          | EngResp.rejected e =>
            let st3 : KVState :=
              { st2 with operation := none, hashed_key := some hk, unhashed_key := some key }
            match e with
            | some ec =>
              some { ret := some (key, value2, some ec)
                     st := { st3 with unhashed_key := none, value := none }
                     calls := [EngineCall.generate_key key hk], cbs := [] }
            | none =>
              some { ret := none, st := st3, calls := [EngineCall.generate_key key hk],
                     cbs := [] }

/-- `KVStore::delete` (lines 379-411). -/
def KVStore.delete (st : KVState) (key : List Nat) (permissions : StoragePermissions)
    (resp : EngResp) : Option DelOut :=
  if st.operation.isSome then
    some { ret := some (key, some ErrorCode.BUSY), st := st, calls := [], cbs := [] }
  else
    let st1 : KVState :=
      { st with operation := some Operation.Delete, valid_ids := some permissions }
    match st1.hashed_key with
    | none => none
    | some hk =>
      let st2 : KVState := { st1 with hashed_key := none }
      match resp with
      | EngResp.accepted =>
        some { ret := none, st := st2, calls := [EngineCall.generate_key key hk], cbs := [] }
      | EngResp.rejected e =>
        let st3 : KVState :=
          { st2 with operation := none, hashed_key := some hk, unhashed_key := some key }
        match e with
        | some ec =>
          some { ret := some (key, some ec)
                 st := { st3 with unhashed_key := none }
                 calls := [EngineCall.generate_key key hk], cbs := [] }
        | none =>
          some { ret := none, st := st3, calls := [EngineCall.generate_key key hk], cbs := [] }

/-- The permission computation repeated in the three branches of
`get_value_complete` (lines 616-626, 659-674, 706-715): `access_allowed`
(or `read_allowed`) is true only if the fetch result is `Ok` or
`Err(SIZE)`, the decoded header has the recognized version, and the
permissions in `valid_ids` grant the requested kind of access to the
owner id of the header.  Decoding a short buffer panics (`none`); an
empty `valid_ids` cell leaves the flag false. -/
def perm_allowed (st : KVState) (result : Res) (ret_buf : List Nat) (write : Bool) :
    Option Bool :=
  if result = none ∨ result = some ErrorCode.SIZE then
    match KeyHeader.new_from_buf ret_buf with
    | none => none
    | some header =>
      if header.version = HEADER_VERSION then
        some (match st.valid_ids with
              | some perms =>
                if write then perms.check_write_permission header.write_id
                else perms.check_read_permission header.write_id
              | none => false)
      else some false
  else some false

/-- `generate_key_complete` (lines 453-546).  `resp` answers whichever
follow-up submission the handler makes (`get_value` for Get/Delete,
`append_key` for Set). -/
def generate_key_complete (st : KVState) (result : Res) (unhashed_key : List Nat)
    (hashed_key : Nat) (resp : EngResp) : StepOut :=
  match st.operation with
  | none => { st := st, calls := [], cbs := [] }
  | some op =>
    match result with
    | some _ =>
      let st1 : KVState := { st with hashed_key := some hashed_key, operation := none }
      match op with
      | Operation.Get =>
        match st1.value with
        | some value =>
          { st := { st1 with value := none }, calls := []
            cbs := if st1.client then [Callback.get_complete result unhashed_key value] else [] }
        | none => { st := st1, calls := [], cbs := [] }
      | Operation.Set =>
        match st1.value with
        | some value =>
          { st := { st1 with value := none }, calls := []
            cbs := if st1.client then [Callback.set_complete result unhashed_key value] else [] }
        | none => { st := st1, calls := [], cbs := [] }
      | Operation.Delete =>
        { st := st1, calls := []
          cbs := if st1.client then [Callback.delete_complete result unhashed_key] else [] }
    | none =>
      match op with
      | Operation.Get =>
        match st.value with
        | none => { st := st, calls := [], cbs := [] }
        | some value =>
          let st1 : KVState := { st with value := none }
          match resp with
          | EngResp.accepted =>
            { st := { st1 with unhashed_key := some unhashed_key }
              calls := [EngineCall.get_value hashed_key value], cbs := [] }
          | EngResp.rejected e =>
            { st := { st1 with hashed_key := some hashed_key, operation := none }
              calls := [EngineCall.get_value hashed_key value]
              cbs := if st1.client then [Callback.get_complete e unhashed_key value] else [] }
      | Operation.Set =>
        match st.value with
        | none => { st := st, calls := [], cbs := [] }
        | some value =>
          let st1 : KVState := { st with value := none }
          match resp with
          | EngResp.accepted =>
            { st := { st1 with unhashed_key := some unhashed_key }
              calls := [EngineCall.append_key hashed_key value], cbs := [] }
          | EngResp.rejected e =>
            { st := { st1 with hashed_key := some hashed_key, operation := none }
              calls := [EngineCall.append_key hashed_key value]
              cbs := if st1.client then [Callback.set_complete e unhashed_key value] else [] }
      | Operation.Delete =>
        match st.header_value with
        | none => { st := st, calls := [], cbs := [] }
        | some hv =>
          let st1 : KVState := { st with header_value := none }
          match resp with
          | EngResp.accepted =>
            { st := { st1 with unhashed_key := some unhashed_key }
              calls := [EngineCall.get_value hashed_key hv], cbs := [] }
          | EngResp.rejected e =>
            let st2 : KVState :=
              { st1 with hashed_key := some hashed_key, header_value := some hv,
                         operation := none }
            { st := st2
              calls := [EngineCall.get_value hashed_key hv]
              cbs := if st1.client then [Callback.delete_complete e unhashed_key] else [] }

/-- `append_key_complete` (lines 548-601).  Only a Set operation reacts;
a `NOSUPPORT` result is the collision case and triggers a header fetch of
the existing object, any other result is terminal. -/
def append_key_complete (st : KVState) (result : Res) (key : Nat) (value : List Nat)
    (resp : EngResp) : StepOut :=
  let st0 : KVState := { st with hashed_key := some key }
  match st0.operation with
  | none => { st := st0, calls := [], cbs := [] }
  | some Operation.Get => { st := st0, calls := [], cbs := [] }
  | some Operation.Delete => { st := st0, calls := [], cbs := [] }
  | some Operation.Set =>
    match result with
    | some ErrorCode.NOSUPPORT =>
      let st1 : KVState := { st0 with hashed_key := none }
      match st1.header_value with
      | none => { st := st1, calls := [], cbs := [] }
      | some header_value =>
        let st2 : KVState := { st1 with header_value := none }
        match resp with
        | EngResp.accepted =>
          { st := { st2 with value := some value }
            calls := [EngineCall.get_value key header_value], cbs := [] }
        | EngResp.rejected e =>
          let st3 : KVState :=
            { st2 with hashed_key := some key, header_value := some header_value,
                       operation := none }
          match st3.unhashed_key with
          | none => { st := st3, calls := [EngineCall.get_value key header_value], cbs := [] }
          | some uk =>
            { st := { st3 with unhashed_key := none }
              calls := [EngineCall.get_value key header_value]
              cbs := if st3.client then [Callback.set_complete e uk value] else [] }
    | _ =>
      let st1 : KVState := { st0 with operation := none }
      match st1.unhashed_key with
      | none => { st := st1, calls := [], cbs := [] }
      | some uk =>
        { st := { st1 with unhashed_key := none }, calls := []
          cbs := if st1.client then [Callback.set_complete result uk value] else [] }

/-- `get_value_complete` (lines 603-745).  The decode of the returned
buffer can panic (`none`).  For Set and Delete an allowed check leads to
an `invalidate_key` submission answered by `resp`; for Get the outcome is
terminal: header stripped on an allowed read, otherwise the whole buffer
zeroed and the opaque `NOSUPPORT` error delivered. -/
def get_value_complete (st : KVState) (result : Res) (key : Nat) (ret_buf : List Nat)
    (resp : EngResp) : Option StepOut :=
  match st.operation with
  | none => some { st := st, calls := [], cbs := [] }
  | some Operation.Set =>
    match perm_allowed st result ret_buf true with
    | none => none
    | some access_allowed =>
      let st1 : KVState := { st with header_value := some ret_buf }
      if access_allowed then
        match resp with
        | EngResp.accepted =>
          some { st := st1, calls := [EngineCall.invalidate_key key], cbs := [] }
        | EngResp.rejected e =>
          let st2 : KVState := { st1 with operation := none, hashed_key := some key }
          match st2.unhashed_key with
          | none => some { st := st2, calls := [EngineCall.invalidate_key key], cbs := [] }
          | some uk =>
            let st3 : KVState := { st2 with unhashed_key := none }
            match st3.value with
            | none => some { st := st3, calls := [EngineCall.invalidate_key key], cbs := [] }
            | some v =>
              some { st := { st3 with value := none }
                     calls := [EngineCall.invalidate_key key]
                     cbs := if st3.client then [Callback.set_complete e uk v] else [] }
      else
        let st2 : KVState := { st1 with operation := none, hashed_key := some key }
        match st2.unhashed_key with
        | none => some { st := st2, calls := [], cbs := [] }
        | some uk =>
          let st3 : KVState := { st2 with unhashed_key := none }
          match st3.value with
          | none => some { st := st3, calls := [], cbs := [] }
          | some v =>
            some { st := { st3 with value := none }, calls := []
                   cbs := if st3.client then
                       [Callback.set_complete (some ErrorCode.FAIL) uk v]
                     else [] }
  | some Operation.Delete =>
    match perm_allowed st result ret_buf true with
    | none => none
    | some access_allowed =>
      let st1 : KVState := { st with header_value := some ret_buf }
      if access_allowed then
        match resp with
        | EngResp.accepted =>
          some { st := st1, calls := [EngineCall.invalidate_key key], cbs := [] }
        | EngResp.rejected e =>
          let st2 : KVState := { st1 with operation := none, hashed_key := some key }
          match st2.unhashed_key with
          | none => some { st := st2, calls := [EngineCall.invalidate_key key], cbs := [] }
          | some uk =>
            some { st := { st2 with unhashed_key := none }
                   calls := [EngineCall.invalidate_key key]
                   cbs := if st2.client then [Callback.delete_complete e uk] else [] }
      else
        let st2 : KVState := { st1 with operation := none, hashed_key := some key }
        match st2.unhashed_key with
        | none => some { st := st2, calls := [], cbs := [] }
        | some uk =>
          some { st := { st2 with unhashed_key := none }, calls := []
                 cbs := if st2.client then
                     [Callback.delete_complete (some ErrorCode.FAIL) uk]
                   else [] }
  | some Operation.Get =>
    let st1 : KVState := { st with hashed_key := some key, operation := none }
    match perm_allowed st1 result ret_buf false with
    | none => none
    | some read_allowed =>
      let out_buf : List Nat :=
        if read_allowed then ret_buf.drop HEADER_LENGTH else ret_buf.map fun _ => 0
      match st1.unhashed_key with
      | none => some { st := st1, calls := [], cbs := [] }
      | some uk =>
        let st2 : KVState := { st1 with unhashed_key := none }
        some { st := st2, calls := []
               cbs := if st2.client then
                   [if read_allowed then Callback.get_complete result uk out_buf
                    else Callback.get_complete (some ErrorCode.NOSUPPORT) uk out_buf]
                 else [] }

/-- `invalidate_key_complete` (lines 747-799).  For a Set this is the
middle of the collision-overwrite path: on success the append is retried,
on failure a `NOSUPPORT` error is delivered; for a Delete the raw result
is passed through verbatim. -/
def invalidate_key_complete (st : KVState) (result : Res) (key : Nat) (resp : EngResp) :
    StepOut :=
  let st0 : KVState := { st with hashed_key := some key }
  match st0.operation with
  | none => { st := st0, calls := [], cbs := [] }
  | some Operation.Get => { st := st0, calls := [], cbs := [] }
  | some Operation.Set =>
    match result with
    | none =>
      let st1 : KVState := { st0 with hashed_key := none }
      match st1.value with
      | none => { st := st1, calls := [], cbs := [] }
      | some v =>
        let st2 : KVState := { st1 with value := none }
        match resp with
        | EngResp.accepted =>
          { st := st2, calls := [EngineCall.append_key key v], cbs := [] }
        | EngResp.rejected e =>
          let st3 : KVState := { st2 with hashed_key := some key, operation := none }
          match st3.unhashed_key with
          | none => { st := st3, calls := [EngineCall.append_key key v], cbs := [] }
          | some uk =>
            { st := { st3 with unhashed_key := none }
              calls := [EngineCall.append_key key v]
              cbs := if st3.client then [Callback.set_complete e uk v] else [] }
    | some _ =>
      let st1 : KVState := { st0 with operation := none }
      match st1.unhashed_key with
      | none => { st := st1, calls := [], cbs := [] }
      | some uk =>
        let st2 : KVState := { st1 with unhashed_key := none }
        match st2.value with
        | none => { st := st2, calls := [], cbs := [] }
        | some v =>
          { st := { st2 with value := none }, calls := []
            cbs := if st2.client then
                [Callback.set_complete (some ErrorCode.NOSUPPORT) uk v]
              else [] }
  | some Operation.Delete =>
    let st1 : KVState := { st0 with operation := none }
    match st1.unhashed_key with
    | none => { st := st1, calls := [], cbs := [] }
    | some uk =>
      { st := { st1 with unhashed_key := none }, calls := []
        cbs := if st1.client then [Callback.delete_complete result uk] else [] }

/-! ### Concrete fixtures used by witnesses and counterexamples -/

/-- Permissions granting read and write everywhere, with write id 7. -/
def permsAll : StoragePermissions :=
  { write_id := some 7, read_perm := fun _ => true, write_perm := fun _ => true }

/-- Permissions with no write id and granting nothing. -/
def permsNone : StoragePermissions :=
  { write_id := none, read_perm := fun _ => false, write_perm := fun _ => false }

/-- An idle store: scratch buffers in their cells, a client registered,
no operation in flight. -/
def idleState : KVState :=
  { hashed_key := some 5, header_value := some (List.replicate 9 0), client := true,
    operation := none, unhashed_key := none, value := none, valid_ids := none }

/-- A store with a Get already in flight. -/
def busyState : KVState :=
  { idleState with operation := some Operation.Get }

/-- A store in the middle of a Set whose append just completed: the
hashed key and value buffer are on loan, the unhashed key is held. -/
def collisionState : KVState :=
  { hashed_key := none, header_value := some (List.replicate 9 0), client := true,
    operation := some Operation.Set, unhashed_key := some [1], value := none,
    valid_ids := some permsAll }

/-- A store in the middle of a Get whose value fetch just completed: the
hashed key and value buffer are on loan, the unhashed key is held. -/
def getFlightState : KVState :=
  { hashed_key := none, header_value := some (List.replicate 9 0), client := true,
    operation := some Operation.Get, unhashed_key := some [1], value := none,
    valid_ids := some permsAll }

/-- A store in the middle of a Delete whose header fetch just completed:
the hashed key and header-scratch buffer are on loan. -/
def deleteFlightState : KVState :=
  { hashed_key := none, header_value := none, client := true,
    operation := some Operation.Delete, unhashed_key := some [1], value := none,
    valid_ids := some permsAll }

/-- The read-permission condition as the specification words it: the
fetch result is success or the size error, the header decodes with the
recognized version, and the permissions grant read access for the owner
id recorded in the header. -/
def c1_read_allowed (perms : StoragePermissions) (result : Res) (ret_buf : List Nat) :
    Bool :=
  (decide (result = none) || decide (result = some ErrorCode.SIZE)) &&
    (match KeyHeader.new_from_buf ret_buf with
     | some hd =>
       decide (hd.version = HEADER_VERSION) && perms.check_read_permission hd.write_id
     | none => false)

/-- A store in the middle of a Get whose key hashing just completed:
value slot still occupied, unhashed key on loan to the engine. -/
def c9State : KVState :=
  { hashed_key := none, header_value := some (List.replicate 9 0), client := true,
    operation := some Operation.Get, unhashed_key := none, value := some [2],
    valid_ids := some permsAll }

/-- The transient state other than the stored permissions is cleared:
whenever a handler delivers a client callback, the operation tag and the
unhashed-key and value slots are empty and the hashed-key scratch buffer
is back in its cell. -/
def cleared_for_callback (o : StepOut) : Prop :=
  o.cbs ≠ [] → o.st.operation = none ∧ o.st.unhashed_key = none ∧
    o.st.value = none ∧ o.st.hashed_key.isSome = true

/-! ### Claim theorems -/

/-- C10: in `set` the write-id validation precedes the busy check, so a
`set` whose permissions carry no write owner id fails with
`InvalidArgument` and hands both buffers back even while another
operation is in flight. -/
theorem c10_set_inval_precedes_busy (st : KVState) (key value : List Nat)
    (perms : StoragePermissions) (resp : EngResp)
    (hbusy : st.operation.isSome = true) (hw : perms.get_write_id = none) :
    KVStore.set st key value perms resp =
      some { ret := some (key, value, some ErrorCode.INVAL), st := st, calls := [],
             cbs := [] } := by
  unfold KVStore.set
  rw [hw]

/-- Witness for C10 at a concrete busy store and empty-write-id
permissions. -/
theorem c10_witness :
    KVStore.set busyState [1] [2] permsNone EngResp.accepted =
      some { ret := some ([1], [2], some ErrorCode.INVAL), st := busyState, calls := [],
             cbs := [] } :=
  c10_set_inval_precedes_busy busyState [1] [2] permsNone EngResp.accepted rfl rfl

/-- C2 counterexample: with an operation in flight, a `set` whose
permissions carry no write owner id fails with `INVAL`, not with the
`BUSY` error the claim promises for every get/set/delete call. -/
theorem c2_counterexample :
    KVStore.set busyState [1] [0, 0, 0, 0, 0, 0, 0, 0, 0] permsNone EngResp.accepted =
      some { ret := some ([1], [0, 0, 0, 0, 0, 0, 0, 0, 0], some ErrorCode.INVAL),
             st := busyState, calls := [], cbs := [] } ∧
    (some ErrorCode.INVAL : Res) ≠ some ErrorCode.BUSY :=
  ⟨rfl, by decide⟩

/-- C2 amended: while an operation is in flight, `get` and `delete` fail
synchronously with `BUSY`, and `set` fails synchronously with `BUSY` when
its permissions carry a write owner id and with `INVAL` otherwise; in all
cases the buffers are handed back and the store state, including the
in-flight operation, is unchanged, and no engine call is made. -/
theorem c2_amended (st : KVState) (key value : List Nat) (perms : StoragePermissions)
    (resp : EngResp) (hbusy : st.operation.isSome = true) :
    KVStore.get st key value perms resp =
      some { ret := some (key, value, some ErrorCode.BUSY), st := st, calls := [],
             cbs := [] } ∧
    KVStore.delete st key perms resp =
      some { ret := some (key, some ErrorCode.BUSY), st := st, calls := [], cbs := [] } ∧
    KVStore.set st key value perms resp =
      some { ret := some (key, value,
               some (if perms.get_write_id.isSome then ErrorCode.BUSY else ErrorCode.INVAL))
             st := st, calls := [], cbs := [] } := by
  refine ⟨?_, ?_, ?_⟩
  · unfold KVStore.get
    rw [hbusy]
    simp
  · unfold KVStore.delete
    rw [hbusy]
    simp
  · unfold KVStore.set
    cases hw : perms.get_write_id with
    | none => simp [hw]
    | some w => rw [hbusy]; simp

/-- Witness for the amended C2 at a concrete busy store. -/
theorem c2_amended_witness :
    KVStore.get busyState [1] [2] permsAll EngResp.accepted =
      some { ret := some ([1], [2], some ErrorCode.BUSY), st := busyState, calls := [],
             cbs := [] } ∧
    KVStore.delete busyState [1] permsAll EngResp.accepted =
      some { ret := some ([1], some ErrorCode.BUSY), st := busyState, calls := [],
             cbs := [] } ∧
    KVStore.set busyState [1] [2] permsAll EngResp.accepted =
      some { ret := some ([1], [2],
               some (if permsAll.get_write_id.isSome then ErrorCode.BUSY
                     else ErrorCode.INVAL))
             st := busyState, calls := [], cbs := [] } :=
  c2_amended busyState [1] [2] permsAll EngResp.accepted rfl

/-- C3 counterexample: with an operation already in flight, a `set` whose
value buffer is shorter than the header fails with `BUSY`, not with the
`SIZE` error the claim promises for every undersized call, because the
busy check sits between the write-id check and the size check. -/
theorem c3_counterexample :
    KVStore.set busyState [1] [2] permsAll EngResp.accepted =
      some { ret := some ([1], [2], some ErrorCode.BUSY), st := busyState, calls := [],
             cbs := [] } ∧
    (some ErrorCode.BUSY : Res) ≠ some ErrorCode.SIZE :=
  ⟨rfl, by decide⟩

/-- C3 amended: a `set` without a write owner id fails with `INVAL`;
with a write owner id but an operation in flight it fails with `BUSY`;
on an idle store an undersized value buffer fails with `SIZE`, buffers
unmutated; otherwise the store writes the header — version 0, then the
payload length and the write id as little-endian u32 values at offsets
1..5 and 5..9 — into the front of the value buffer, which every further
outcome of the call carries (either still held in the value slot or
handed back through the error return). -/
theorem c3_amended (st : KVState) (key value : List Nat) (perms : StoragePermissions)
    (resp : EngResp) :
    (perms.get_write_id = none →
      KVStore.set st key value perms resp =
        some { ret := some (key, value, some ErrorCode.INVAL), st := st, calls := [],
               cbs := [] }) ∧
    (perms.get_write_id ≠ none → st.operation.isSome = true →
      KVStore.set st key value perms resp =
        some { ret := some (key, value, some ErrorCode.BUSY), st := st, calls := [],
               cbs := [] }) ∧
    (perms.get_write_id ≠ none → st.operation = none → value.length < HEADER_LENGTH →
      KVStore.set st key value perms resp =
        some { ret := some (key, value, some ErrorCode.SIZE), st := st, calls := [],
               cbs := [] }) ∧
    (∀ w out, perms.get_write_id = some w → st.operation = none →
      HEADER_LENGTH ≤ value.length →
      KVStore.set st key value perms resp = some out →
      ∃ enc, (out.st.value = some enc ∨ ∃ e, out.ret = some (key, enc, e)) ∧
        enc = [HEADER_VERSION] ++ toLeBytes4 (value.length - HEADER_LENGTH) ++
          toLeBytes4 w ++ value.drop HEADER_LENGTH) := by
  refine ⟨?_, ?_, ?_, ?_⟩
  · intro hw
    unfold KVStore.set
    rw [hw]
  · intro hw hbusy
    unfold KVStore.set
    cases hw2 : perms.get_write_id with
    | none => exact absurd hw2 hw
    | some w => rw [hbusy]; simp
  · intro hw hidle hlen
    unfold KVStore.set
    cases hw2 : perms.get_write_id with
    | none => exact absurd hw2 hw
    | some w =>
      rw [hidle]
      simp [hlen]
  · intro w out hw hidle hlen hrun
    unfold KVStore.set at hrun
    rw [hw, hidle] at hrun
    simp only [Option.isSome_none, Bool.false_eq_true, if_false, Nat.not_lt_of_le hlen,
      if_neg] at hrun
    have henc : KeyHeader.copy_to_buf
        { version := HEADER_VERSION, length := value.length - HEADER_LENGTH,
          write_id := w } value =
        some ([HEADER_VERSION] ++ toLeBytes4 (value.length - HEADER_LENGTH) ++
          toLeBytes4 w ++ value.drop HEADER_LENGTH) := by
      unfold KeyHeader.copy_to_buf
      rw [if_neg (by unfold HEADER_LENGTH at hlen; omega : ¬ value.length < 9)]
      rfl
    rw [henc] at hrun
    refine ⟨[HEADER_VERSION] ++ toLeBytes4 (value.length - HEADER_LENGTH) ++
      toLeBytes4 w ++ value.drop HEADER_LENGTH, ?_, rfl⟩
    cases hhk : st.hashed_key with
    | none => rw [hhk] at hrun; simp at hrun
    | some hk =>
      rw [hhk] at hrun
      cases resp with
      | accepted =>
        simp only [Option.some.injEq] at hrun
        left
        rw [← hrun]
      | rejected e =>
        cases e with
        | none =>
          simp only [Option.some.injEq] at hrun
          left
          rw [← hrun]
        | some ec =>
          simp only [Option.some.injEq] at hrun
          right
          exact ⟨some ec, by rw [← hrun]⟩

/-- Witness for the amended C3, applying each conjunct at a concrete
input that satisfies its hypotheses. -/
theorem c3_amended_witness :
    KVStore.set idleState [1] [2] permsNone EngResp.accepted =
      some { ret := some ([1], [2], some ErrorCode.INVAL), st := idleState, calls := [],
             cbs := [] } ∧
    KVStore.set busyState [1] [2] permsAll EngResp.accepted =
      some { ret := some ([1], [2], some ErrorCode.BUSY), st := busyState, calls := [],
             cbs := [] } ∧
    KVStore.set idleState [1] [2] permsAll EngResp.accepted =
      some { ret := some ([1], [2], some ErrorCode.SIZE), st := idleState, calls := [],
             cbs := [] } ∧
    ∃ out enc,
      KVStore.set idleState [1] [3, 3, 3, 3, 3, 3, 3, 3, 3, 3] permsAll
        EngResp.accepted = some out ∧
      (out.st.value = some enc ∨ ∃ e, out.ret = some ([1], enc, e)) ∧
      enc = [HEADER_VERSION] ++ toLeBytes4 1 ++ toLeBytes4 7 ++ [3] := by
  refine ⟨(c3_amended idleState [1] [2] permsNone EngResp.accepted).1 rfl,
    (c3_amended busyState [1] [2] permsAll EngResp.accepted).2.1 (by decide) rfl,
    (c3_amended idleState [1] [2] permsAll EngResp.accepted).2.2.1 (by decide) rfl
      (by decide), ?_⟩
  obtain ⟨enc, hmem, henc⟩ :=
    (c3_amended idleState [1] [3, 3, 3, 3, 3, 3, 3, 3, 3, 3] permsAll
      EngResp.accepted).2.2.2 7 _ rfl rfl (by decide) rfl
  exact ⟨_, enc, rfl, hmem, by rw [henc]; rfl⟩

/-- C8: `KeyHeader::new_from_buf` panics on buffers shorter than 9 bytes
(the slice expressions index out of range), modelled as `none`; it is
total only from 9 bytes up.  This contradicts the claim (and the
documented intent of the `unwrap_or` fallback) that decoding never
fails. -/
theorem c8_decode_panics_on_short_buffer :
    KeyHeader.new_from_buf [] = none ∧
    KeyHeader.new_from_buf [0, 0, 0, 0] = none ∧
    KeyHeader.new_from_buf [0, 0, 0, 0, 0, 0, 0, 0] = none ∧
    KeyHeader.new_from_buf [0, 1, 0, 0, 0, 7, 0, 0, 0] =
      some { version := 0, length := 1, write_id := 7 } := by
  refine ⟨rfl, rfl, rfl, ?_⟩
  decide

/-- C7 counterexample: when the first engine call of a `get` fails
synchronously, the store returns the error and both buffers through the
return value of the initiating call and delivers no client callback at
all, contradicting the claim that the report travels through the
completion-callback path. -/
theorem c7_counterexample :
    KVStore.get idleState [1] [2] permsAll (EngResp.rejected (some ErrorCode.FAIL)) =
      some { ret := some ([1], [2], some ErrorCode.FAIL)
             st := { idleState with valid_ids := some permsAll }
             calls := [EngineCall.generate_key [1] 5], cbs := [] } :=
  rfl

/-- C7 amended: when the generate-key submission of a get, set or delete
fails synchronously, the store restores its state to Idle (operation
cleared, hashed-key buffer back in its cell) and reports the error
together with the caller buffers through the return value of the
initiating call; no client callback is delivered. -/
theorem c7_amended (st : KVState) (key value : List Nat) (perms : StoragePermissions)
    (ec : ErrorCode) (hk : Nat) (hidle : st.operation = none)
    (hhk : st.hashed_key = some hk) :
    KVStore.get st key value perms (EngResp.rejected (some ec)) =
      some { ret := some (key, value, some ec)
             st := { st with
                 operation := none
                 valid_ids := some perms
                 unhashed_key := none
                 value := none }
             calls := [EngineCall.generate_key key hk], cbs := [] } ∧
    KVStore.delete st key perms (EngResp.rejected (some ec)) =
      some { ret := some (key, some ec)
             st := { st with
                 operation := none
                 valid_ids := some perms
                 unhashed_key := none }
             calls := [EngineCall.generate_key key hk], cbs := [] } ∧
    (∀ w enc, perms.get_write_id = some w →
      KeyHeader.copy_to_buf
        { version := HEADER_VERSION, length := value.length - HEADER_LENGTH,
          write_id := w } value = some enc →
      KVStore.set st key value perms (EngResp.rejected (some ec)) =
        some { ret := some (key, enc, some ec)
               st := { st with
                   operation := none
                   valid_ids := some perms
                   unhashed_key := none
                   value := none }
               calls := [EngineCall.generate_key key hk], cbs := [] }) := by
  refine ⟨?_, ?_, ?_⟩
  · unfold KVStore.get
    simp [hidle, hhk]
  · unfold KVStore.delete
    simp [hidle, hhk]
  · intro w enc hw henc
    have hlen : ¬ value.length < HEADER_LENGTH := by
      intro hcon
      unfold KeyHeader.copy_to_buf at henc
      rw [if_pos (by unfold HEADER_LENGTH at hcon; omega : value.length < 9)] at henc
      exact Option.noConfusion henc
    unfold KVStore.set
    rw [hw]
    simp [hidle, hlen, henc, hhk]

/-- Witness for the amended C7 at a concrete idle store. -/
theorem c7_amended_witness :
    KVStore.get idleState [1] [2] permsAll (EngResp.rejected (some ErrorCode.NOMEM)) =
      some { ret := some ([1], [2], some ErrorCode.NOMEM)
             st := { idleState with
                 operation := none
                 valid_ids := some permsAll
                 unhashed_key := none
                 value := none }
             calls := [EngineCall.generate_key [1] 5], cbs := [] } ∧
    KVStore.delete idleState [1] permsAll (EngResp.rejected (some ErrorCode.NOMEM)) =
      some { ret := some ([1], some ErrorCode.NOMEM)
             st := { idleState with
                 operation := none
                 valid_ids := some permsAll
                 unhashed_key := none }
             calls := [EngineCall.generate_key [1] 5], cbs := [] } :=
  ⟨(c7_amended idleState [1] [2] permsAll ErrorCode.NOMEM 5 rfl rfl).1,
   (c7_amended idleState [1] [2] permsAll ErrorCode.NOMEM 5 rfl rfl).2.1⟩

/-- C4: on append-key completion of a Set, exactly a `NOSUPPORT` result
enters the collision branch — observable as the fetch of the existing
header into the header-scratch buffer — while every other result is
terminal: operation cleared and the result delivered as-is through
`set_complete`. -/
theorem c4_append_collision_dispatch (st : KVState) (result : Res) (key : Nat)
    (value hv uk : List Nat) (resp : EngResp)
    (hop : st.operation = some Operation.Set) (hhv : st.header_value = some hv)
    (huk : st.unhashed_key = some uk) (hcl : st.client = true) :
    ((append_key_complete st result key value resp).calls =
        [EngineCall.get_value key hv] ↔ result = some ErrorCode.NOSUPPORT) ∧
    (result ≠ some ErrorCode.NOSUPPORT →
      append_key_complete st result key value resp =
        { st := { st with hashed_key := some key, operation := none, unhashed_key := none }
          calls := []
          cbs := [Callback.set_complete result uk value] }) := by
  unfold append_key_complete
  cases result with
  | none => simp [hop, huk, hcl]
  | some ec => cases ec <;> simp [hop, hhv, huk, hcl] <;> cases resp <;> simp

/-- Witness for C4 at a concrete in-flight Set, exercised once on the
collision result and once on a pass-through error. -/
theorem c4_witness :
    ((append_key_complete collisionState (some ErrorCode.NOSUPPORT) 5 [9]
        EngResp.accepted).calls = [EngineCall.get_value 5 (List.replicate 9 0)] ↔
      (some ErrorCode.NOSUPPORT : Res) = some ErrorCode.NOSUPPORT) ∧
    append_key_complete collisionState (some ErrorCode.NOMEM) 5 [9] EngResp.accepted =
      { st := { collisionState with
                  hashed_key := some 5
                  operation := none
                  unhashed_key := none }
        calls := []
        cbs := [Callback.set_complete (some ErrorCode.NOMEM) [1] [9]] } :=
  ⟨(c4_append_collision_dispatch collisionState (some ErrorCode.NOSUPPORT) 5 [9]
      (List.replicate 9 0) [1] EngResp.accepted rfl rfl rfl rfl).1,
   (c4_append_collision_dispatch collisionState (some ErrorCode.NOMEM) 5 [9]
      (List.replicate 9 0) [1] EngResp.accepted rfl rfl rfl rfl).2 (by decide)⟩

/-- C6 counterexample: in the collision branch, when the header fetch is
rejected synchronously, the store delivers the rejection error of that
fetch (`FAIL` here) to `set_complete`, not the original append error
`NOSUPPORT` the claim promises. -/
theorem c6_counterexample :
    (append_key_complete collisionState (some ErrorCode.NOSUPPORT) 5 [9, 9, 9]
        (EngResp.rejected (some ErrorCode.FAIL))).cbs =
      [Callback.set_complete (some ErrorCode.FAIL) [1] [9, 9, 9]] ∧
    (some ErrorCode.FAIL : Res) ≠ some ErrorCode.NOSUPPORT :=
  ⟨rfl, by decide⟩

/-- C6 amended: when the collision-branch header fetch fails
synchronously, the store clears the operation and delivers the error
returned by the failed fetch submission (not the original `NOSUPPORT`
append error) to `set_complete`. -/
theorem c6_amended (st : KVState) (key : Nat) (value hv uk : List Nat) (e : Res)
    (hop : st.operation = some Operation.Set) (hhv : st.header_value = some hv)
    (huk : st.unhashed_key = some uk) (hcl : st.client = true) :
    append_key_complete st (some ErrorCode.NOSUPPORT) key value (EngResp.rejected e) =
      { st := { st with
                  hashed_key := some key
                  header_value := some hv
                  operation := none
                  unhashed_key := none }
        calls := [EngineCall.get_value key hv]
        cbs := [Callback.set_complete e uk value] } := by
  unfold append_key_complete
  simp [hop, hhv, huk, hcl]

/-- Witness for the amended C6 at a concrete collision state. -/
theorem c6_amended_witness :
    append_key_complete collisionState (some ErrorCode.NOSUPPORT) 5 [9]
        (EngResp.rejected (some ErrorCode.NOMEM)) =
      { st := { collisionState with
                  hashed_key := some 5
                  header_value := some (List.replicate 9 0)
                  operation := none
                  unhashed_key := none }
        calls := [EngineCall.get_value 5 (List.replicate 9 0)]
        cbs := [Callback.set_complete (some ErrorCode.NOMEM) [1] [9]] } :=
  c6_amended collisionState 5 [9] (List.replicate 9 0) [1] (some ErrorCode.NOMEM)
    rfl rfl rfl rfl

/-- The read-access flag computed by the Get branch of
`get_value_complete` agrees with the specification-side condition
whenever the computation does not panic. -/
theorem perm_allowed_read_eq (st : KVState) (perms : StoragePermissions) (result : Res)
    (ret_buf : List Nat) (b : Bool) (hids : st.valid_ids = some perms)
    (hp : perm_allowed st result ret_buf false = some b) :
    c1_read_allowed perms result ret_buf = b := by
  unfold perm_allowed at hp
  unfold c1_read_allowed
  by_cases hc : result = none ∨ result = some ErrorCode.SIZE
  · rw [if_pos hc] at hp
    cases hd : KeyHeader.new_from_buf ret_buf with
    | none => rw [hd] at hp; exact Option.noConfusion hp
    | some h =>
      rw [hd] at hp
      simp only [hids] at hp
      by_cases hv : h.version = HEADER_VERSION
      · simp only [hv, if_true, if_pos, Bool.false_eq_true, if_false,
          Option.some.injEq] at hp
        rcases hc with hc | hc <;> simp [hc, hv, ← hp]
      · simp only [if_neg hv, Option.some.injEq] at hp
        simp [← hp, hv]
  · rw [if_neg hc] at hp
    simp only [Option.some.injEq] at hp
    simp only [← hp, Bool.and_eq_false_imp]
    intro hres
    rcases Bool.or_eq_true_iff.mp hres with hres | hres <;>
      exact absurd (of_decide_eq_true hres) (by tauto)

/-- C1: on value-fetch completion of a Get, if the read is allowed per
the specification condition, the 9 header bytes are stripped from the
front of the returned buffer and it is delivered through `get_complete`
with the original fetch result; otherwise the entire buffer is zeroed
and delivered with the opaque `NOSUPPORT` error, so absence and
permission denial are indistinguishable.  (The operation is cleared in
both cases.) -/
theorem c1_get_read_gate (st : KVState) (result : Res) (key : Nat)
    (ret_buf uk : List Nat) (resp : EngResp) (perms : StoragePermissions) (out : StepOut)
    (hop : st.operation = some Operation.Get) (hcl : st.client = true)
    (huk : st.unhashed_key = some uk) (hids : st.valid_ids = some perms)
    (hrun : get_value_complete st result key ret_buf resp = some out) :
    (c1_read_allowed perms result ret_buf = true →
      out.cbs = [Callback.get_complete result uk (ret_buf.drop HEADER_LENGTH)] ∧
      out.st.operation = none) ∧
    (c1_read_allowed perms result ret_buf = false →
      out.cbs = [Callback.get_complete (some ErrorCode.NOSUPPORT) uk
          (ret_buf.map fun _ => 0)] ∧
      out.st.operation = none) := by
  unfold get_value_complete at hrun
  rw [hop] at hrun
  simp only at hrun
  cases hp : perm_allowed { st with hashed_key := some key, operation := none } result
      ret_buf false with
  | none => rw [hp] at hrun; exact Option.noConfusion hrun
  | some ra =>
    have hra : c1_read_allowed perms result ret_buf = ra :=
      perm_allowed_read_eq _ perms result ret_buf ra hids hp
    rw [hp] at hrun
    simp only [huk, hcl, if_pos] at hrun
    simp only [Option.some.injEq] at hrun
    subst hrun
    rw [hra]
    cases ra <;> simp

/-- Witness for C1: a permitted read on a well-formed header buffer and
a denied read on an error result, at concrete states. -/
theorem c1_witness :
    (∃ out, get_value_complete getFlightState (some ErrorCode.SIZE) 5
        [0, 1, 0, 0, 0, 7, 0, 0, 0, 42] EngResp.accepted = some out ∧
      out.cbs = [Callback.get_complete (some ErrorCode.SIZE) [1] [42]]) ∧
    (∃ out, get_value_complete getFlightState (some ErrorCode.FAIL) 5
        [3, 3] EngResp.accepted = some out ∧
      out.cbs = [Callback.get_complete (some ErrorCode.NOSUPPORT) [1] [0, 0]]) := by
  constructor
  · refine ⟨_, rfl, ?_⟩
    have h := (c1_get_read_gate getFlightState (some ErrorCode.SIZE) 5
      [0, 1, 0, 0, 0, 7, 0, 0, 0, 42] [1] EngResp.accepted permsAll _
      rfl rfl rfl rfl rfl).1 (by decide)
    exact h.1
  · refine ⟨_, rfl, ?_⟩
    have h := (c1_get_read_gate getFlightState (some ErrorCode.FAIL) 5
      [3, 3] [1] EngResp.accepted permsAll _ rfl rfl rfl rfl rfl).2 (by decide)
    exact h.1

/-- When the fetch result is neither success nor the size error, or the
header decodes with a wrong version or a write-denied owner id, the
access flag computed by `perm_allowed` in write mode is false. -/
theorem perm_allowed_write_denied (st : KVState) (perms : StoragePermissions)
    (result : Res) (ret_buf : List Nat) (b : Bool) (hids : st.valid_ids = some perms)
    (hna : ¬(result = none ∨ result = some ErrorCode.SIZE) ∨
      (∃ hd, KeyHeader.new_from_buf ret_buf = some hd ∧
        (hd.version ≠ HEADER_VERSION ∨ perms.check_write_permission hd.write_id = false)))
    (hp : perm_allowed st result ret_buf true = some b) : b = false := by
  unfold perm_allowed at hp
  by_cases hc : result = none ∨ result = some ErrorCode.SIZE
  · rw [if_pos hc] at hp
    rcases hna with hna | ⟨hd, hhd, hver⟩
    · exact absurd hc hna
    · rw [hhd] at hp
      simp only [hids] at hp
      rcases hver with hver | hver
      · simp only [if_neg hver, Option.some.injEq] at hp
        exact hp.symm
      · by_cases hv : hd.version = HEADER_VERSION
        · simp only [hv, if_true, if_pos, Option.some.injEq] at hp
          simp only [← hp, hver]
        · simp only [if_neg hv, Option.some.injEq] at hp
          exact hp.symm
  · rw [if_neg hc] at hp
    simp only [Option.some.injEq] at hp
    exact hp.symm

/-- C5: a Delete whose header fetch completes with the object absent
(neither success nor the size error), with an unrecognized header
version, or with write access denied for the owner id, terminates with
the generic `FAIL` error through `delete_complete`, clears the
operation, and never submits the invalidate call to the engine. -/
theorem c5_delete_denied (st : KVState) (result : Res) (key : Nat)
    (ret_buf uk : List Nat) (resp : EngResp) (perms : StoragePermissions) (out : StepOut)
    (hop : st.operation = some Operation.Delete) (hcl : st.client = true)
    (huk : st.unhashed_key = some uk) (hids : st.valid_ids = some perms)
    (hna : ¬(result = none ∨ result = some ErrorCode.SIZE) ∨
      (∃ hd, KeyHeader.new_from_buf ret_buf = some hd ∧
        (hd.version ≠ HEADER_VERSION ∨ perms.check_write_permission hd.write_id = false)))
    (hrun : get_value_complete st result key ret_buf resp = some out) :
    out.cbs = [Callback.delete_complete (some ErrorCode.FAIL) uk] ∧
    out.calls = [] ∧ out.st.operation = none := by
  unfold get_value_complete at hrun
  rw [hop] at hrun
  simp only at hrun
  cases hp : perm_allowed st result ret_buf true with
  | none => rw [hp] at hrun; exact Option.noConfusion hrun
  | some aa =>
    have haa : aa = false := perm_allowed_write_denied st perms result ret_buf aa hids hna hp
    subst haa
    rw [hp] at hrun
    simp only [Bool.false_eq_true, if_false, huk, hcl, if_pos, Option.some.injEq] at hrun
    subst hrun
    simp

/-- Witness for C5: a Delete whose header fetch reports the object
absent at a concrete state. -/
theorem c5_witness :
    ∃ out, get_value_complete deleteFlightState (some ErrorCode.NOSUPPORT) 5
        (List.replicate 9 0) EngResp.accepted = some out ∧
      out.cbs = [Callback.delete_complete (some ErrorCode.FAIL) [1]] ∧
      out.calls = [] ∧ out.st.operation = none :=
  ⟨_, rfl, c5_delete_denied deleteFlightState (some ErrorCode.NOSUPPORT) 5
    (List.replicate 9 0) [1] EngResp.accepted permsAll _ rfl rfl rfl rfl
    (Or.inl (by decide)) rfl⟩

/-- C9 counterexample: a terminal callback fires (here the error path of
key-hash completion on a Get) while the stored permissions cell
`valid_ids` is still occupied — the source never clears it — so the
per-operation state is not fully cleared before the callback. -/
theorem c9_counterexample :
    (generate_key_complete c9State (some ErrorCode.FAIL) [1] 5 EngResp.accepted).cbs =
      [Callback.get_complete (some ErrorCode.FAIL) [1] [2]] ∧
    (generate_key_complete c9State (some ErrorCode.FAIL) [1] 5
        EngResp.accepted).st.valid_ids.isSome = true :=
  ⟨rfl, rfl⟩

/-- C9 amended: on every path of every handler that delivers a terminal
callback, the operation tag and the unhashed-key and value slots are
cleared and the hashed-key buffer is restored before the callback — but
not the stored permissions (`valid_ids`), which the source never clears
(see the counterexample); the hypotheses record which slots the
in-flight operation had lent out when the completion arrived. -/
theorem c9_amended (st : KVState) (result : Res) (uk value ret_buf : List Nat)
    (hk : Nat) (resp : EngResp) :
    (st.unhashed_key = none → (st.operation = some Operation.Delete → st.value = none) →
      cleared_for_callback (generate_key_complete st result uk hk resp)) ∧
    (st.value = none → cleared_for_callback (append_key_complete st result hk value resp)) ∧
    ((st.operation ≠ some Operation.Set → st.value = none) →
      ∀ out, get_value_complete st result hk ret_buf resp = some out →
        cleared_for_callback out) ∧
    ((st.operation = some Operation.Delete → st.value = none) →
      cleared_for_callback (invalidate_key_complete st result hk resp)) := by
  refine ⟨?_, ?_, ?_, ?_⟩
  · intro h1 h2
    unfold generate_key_complete cleared_for_callback
    cases hop : st.operation with
    | none => simp
    | some op =>
      cases op with
      | Get =>
        cases result <;> cases hv : st.value <;> cases resp <;> cases hcl : st.client <;>
          simp [h1, hv, hcl]
      | Set =>
        cases result <;> cases hv : st.value <;> cases resp <;> cases hcl : st.client <;>
          simp [h1, hv, hcl]
      | Delete =>
        cases result <;> cases hhv : st.header_value <;> cases resp <;>
          cases hcl : st.client <;> simp [h1, h2 hop, hhv, hcl]
  · intro h1
    unfold append_key_complete cleared_for_callback
    cases hop : st.operation with
    | none => simp
    | some op =>
      cases op with
      | Get => simp
      | Delete => simp
      | Set =>
        cases result with
        | none =>
          cases huk : st.unhashed_key <;> cases hcl : st.client <;> simp [h1, huk, hcl]
        | some ec =>
          cases ec <;> cases hhv : st.header_value <;> cases resp <;>
            cases huk : st.unhashed_key <;> cases hcl : st.client <;>
            simp [h1, hhv, huk, hcl]
  · intro hsv out hrun
    unfold get_value_complete at hrun
    cases hop : st.operation with
    | none =>
      rw [hop] at hrun
      simp only [Option.some.injEq] at hrun
      subst hrun
      simp [cleared_for_callback]
    | some op =>
      rw [hop] at hrun
      cases op with
      | Get =>
        have hv : st.value = none := hsv (by simp [hop])
        simp only at hrun
        cases hp : perm_allowed { st with hashed_key := some hk, operation := none }
            result ret_buf false with
        | none => rw [hp] at hrun; exact Option.noConfusion hrun
        | some ra =>
          rw [hp] at hrun
          cases huk : st.unhashed_key with
          | none =>
            simp only [huk, Option.some.injEq] at hrun
            subst hrun
            simp [cleared_for_callback]
          | some u =>
            cases hcl : st.client <;>
              simp only [huk, hcl, if_true, if_false, Bool.false_eq_true, if_pos, if_neg,
                Option.some.injEq] at hrun <;>
              subst hrun <;> simp [cleared_for_callback, hv]
      | Set =>
        simp only at hrun
        cases hp : perm_allowed st result ret_buf true with
        | none => rw [hp] at hrun; exact Option.noConfusion hrun
        | some aa =>
          rw [hp] at hrun
          cases aa with
          | true =>
            simp only [if_true, if_pos] at hrun
            cases resp with
            | accepted =>
              simp only [Option.some.injEq] at hrun
              subst hrun
              simp [cleared_for_callback]
            | rejected e =>
              cases huk : st.unhashed_key with
              | none =>
                simp only [huk, Option.some.injEq] at hrun
                subst hrun
                simp [cleared_for_callback]
              | some u =>
                cases hv : st.value with
                | none =>
                  simp only [huk, hv, Option.some.injEq] at hrun
                  subst hrun
                  simp [cleared_for_callback]
                | some v =>
                  cases hcl : st.client <;>
                    simp only [huk, hv, hcl, Option.some.injEq] at hrun <;>
                    subst hrun <;> simp [cleared_for_callback]
          | false =>
            simp only [Bool.false_eq_true, if_false] at hrun
            cases huk : st.unhashed_key with
            | none =>
              simp only [huk, Option.some.injEq] at hrun
              subst hrun
              simp [cleared_for_callback]
            | some u =>
              cases hv : st.value with
              | none =>
                simp only [huk, hv, Option.some.injEq] at hrun
                subst hrun
                simp [cleared_for_callback]
              | some v =>
                cases hcl : st.client <;>
                  simp only [huk, hv, hcl, Option.some.injEq] at hrun <;>
                  subst hrun <;> simp [cleared_for_callback]
      | Delete =>
        have hv : st.value = none := hsv (by simp [hop])
        simp only at hrun
        cases hp : perm_allowed st result ret_buf true with
        | none => rw [hp] at hrun; exact Option.noConfusion hrun
        | some aa =>
          rw [hp] at hrun
          cases aa with
          | true =>
            simp only [if_true, if_pos] at hrun
            cases resp with
            | accepted =>
              simp only [Option.some.injEq] at hrun
              subst hrun
              simp [cleared_for_callback]
            | rejected e =>
              cases huk : st.unhashed_key with
              | none =>
                simp only [huk, Option.some.injEq] at hrun
                subst hrun
                simp [cleared_for_callback]
              | some u =>
                cases hcl : st.client <;>
                  simp only [huk, hcl, Option.some.injEq] at hrun <;>
                  subst hrun <;> simp [cleared_for_callback, hv]
          | false =>
            simp only [Bool.false_eq_true, if_false] at hrun
            cases huk : st.unhashed_key with
            | none =>
              simp only [huk, Option.some.injEq] at hrun
              subst hrun
              simp [cleared_for_callback]
            | some u =>
              cases hcl : st.client <;>
                simp only [huk, hcl, Option.some.injEq] at hrun <;>
                subst hrun <;> simp [cleared_for_callback, hv]
  · intro h2
    unfold invalidate_key_complete cleared_for_callback
    cases hop : st.operation with
    | none => simp
    | some op =>
      cases op with
      | Get => simp
      | Set =>
        cases result with
        | none =>
          cases hv : st.value <;> cases resp <;> cases huk : st.unhashed_key <;>
            cases hcl : st.client <;> simp [hv, huk, hcl]
        | some ec =>
          cases huk : st.unhashed_key <;> cases hv : st.value <;> cases hcl : st.client <;>
            simp [huk, hv, hcl]
      | Delete =>
        cases huk : st.unhashed_key <;> cases hcl : st.client <;>
          simp [huk, hcl, h2 hop]

/-- Witness for the amended C9, applying each conjunct at a concrete
in-flight state. -/
theorem c9_amended_witness :
    cleared_for_callback (generate_key_complete c9State (some ErrorCode.FAIL) [1] 5
      EngResp.accepted) ∧
    cleared_for_callback (append_key_complete collisionState (some ErrorCode.NOMEM) 5 [9]
      EngResp.accepted) ∧
    cleared_for_callback (invalidate_key_complete deleteFlightState (some ErrorCode.FAIL)
      5 EngResp.accepted) ∧
    ∃ out, get_value_complete getFlightState (some ErrorCode.FAIL) 5 [3] EngResp.accepted =
        some out ∧ cleared_for_callback out := by
  refine ⟨(c9_amended c9State (some ErrorCode.FAIL) [1] [9] [3] 5 EngResp.accepted).1
      rfl (by intro h; exact absurd h (by decide)),
    (c9_amended collisionState (some ErrorCode.NOMEM) [1] [9] [3] 5 EngResp.accepted).2.1
      rfl,
    (c9_amended deleteFlightState (some ErrorCode.FAIL) [1] [9] [3] 5
      EngResp.accepted).2.2.2 (fun _ => rfl),
    ⟨_, rfl, (c9_amended getFlightState (some ErrorCode.FAIL) [1] [9] [3] 5
      EngResp.accepted).2.2.1 (fun _ => rfl) _ rfl⟩⟩

end KVSpec
